import Mathlib

/-!
Verification of the eventyay-tickets-paypal webhook reconciliation engine.

The definitions below are a shallow embedding of `eventyay_paypal/views.py`
(helpers from `eventyay_paypal/utils.py`, data model from the migrations).
Python dictionaries reached through `safe_get` / `.get` are modelled as
structures with `Option` fields; `Decimal` amounts are modelled as `ℚ`;
datetimes are modelled as integer seconds; a value raised as an uncaught
Python exception is modelled as `Except.error` carrying a `Crash` tag.
External collaborators (the PayPal REST client, the pretix order-management
operations `create_external_refund`, `OrderRefund.done`, `confirm`) are
modelled at their documented interface: a fetch is a `FetchResult` input,
`create_external_refund amount info` appends a refund record in the
externally-sourced state, `done` moves a record to the done state.
-/

namespace PaypalWebhook

/-- Truthiness of an optional string, as Python evaluates it in
`if refund_id := refund_detail.get("id")` and the walrus test on
`safe_get(..., ["resource", "supplementary_data", "related_ids", "order_id"])`:
`None` and the empty string are falsy. -/
def strTruthy : Option String → Bool
  | none => false
  | some s => !(s == "")

/-- Refund states, following `OrderRefund.REFUND_STATE_CREATED`,
`REFUND_STATE_TRANSIT`, `REFUND_STATE_DONE`, the externally-sourced state
carried by records made through `create_external_refund`
(the `REFUND_SOURCE_EXTERNAL` token used in the `state__in` filter of
`views.py` lines 406-413), and the failed state excluded by that filter. -/
inductive RefundState where
  | created
  | transit
  | done
  | sourceExternal
  | failed
deriving DecidableEq, Repr

/-- One refund record of a payment (`payment.refunds`): `info_id` is
`refund.info_data.get("id")` (none when the record was created without
provider info, e.g. the shortfall records), `amount` the decimal amount,
`state` its refund state. -/
structure RefundRecord where
  info_id : Option String
  amount : ℚ
  state : RefundState
deriving DecidableEq, Repr

/-- The refund detail returned by
`prov.paypal_request_handler.get_refund_detail`, with the fields read by
`handle_refund`: `id`, `amount.value`, `status`, and
`seller_payable_breakdown.total_refunded_amount.value`.  Absent nested keys
are `none`, matching the `safe_get` defaults. -/
structure RefundDetail where
  id : Option String
  amountValue : Option ℚ
  status : Option String
  totalRefundedAmount : Option ℚ
deriving DecidableEq, Repr

/-- States counted by the `state__in` filter of `views.py` lines 406-413:
done, transit, created, and the externally-sourced state. -/
def countsInSum (s : RefundState) : Bool :=
  s == RefundState.done || s == RefundState.transit ||
    s == RefundState.created || s == RefundState.sourceExternal

/-- `payment.refunds.filter(state__in=(DONE, TRANSIT, CREATED,
SOURCE_EXTERNAL)).aggregate(s=Sum("amount"))` of `views.py` lines 406-413. -/
def knownRefundSum (rs : List RefundRecord) : ℚ :=
  ((rs.filter (fun r => countsInSum r.state)).map (fun r => r.amount)).sum

/-- Membership of a refund id among `known_refunds` keys
(`refund.info_data.get("id")` for each existing record). -/
def hasId (rid : Option String) (rs : List RefundRecord) : Bool :=
  rs.any (fun r => r.info_id == rid)

/-- `know_refund.done()` guarded by
`know_refund.state in (REFUND_STATE_CREATED, REFUND_STATE_TRANSIT)`
(`views.py` lines 391-399). -/
def doneIfPending (r : RefundRecord) : RefundRecord :=
  if r.state == RefundState.created || r.state == RefundState.transit then
    { r with state := RefundState.done }
  else r

/-- `known_refunds.get(refund_id)` resolves to the last record with the id
(a dict comprehension keeps the last binding), so the transition of
`views.py` lines 390-399 applies `doneIfPending` to the last matching
record. -/
def markLastDone (rid : Option String) : List RefundRecord → List RefundRecord
  | [] => []
  | r :: rs =>
    if hasId rid rs then r :: markLastDone rid rs
    else if r.info_id == rid then doneIfPending r :: rs
    else r :: rs

/-- The de-duplication step of `handle_refund` (`views.py` lines 380-399):
an unknown refund id creates a record for `abs(Decimal(amount.value))`
via `create_external_refund`; a known id in the created/transit state is
moved to done when the remote status is COMPLETED. -/
def refundDedupStep (d : RefundDetail) (refunds : List RefundRecord) :
    List RefundRecord :=
  if hasId d.id refunds then
    if d.status.getD "" == "COMPLETED" then markLastDone d.id refunds
    else refunds
  else
    refunds ++ [⟨d.id, |d.amountValue.getD 0|, RefundState.sourceExternal⟩]

/-- The body of `handle_refund` after a successful fetch (`views.py` lines
378-416): guarded by the truthiness of `refund_detail.get("id")`, the
de-duplication step runs, then the known non-failed sum is compared with
the remote `seller_payable_breakdown.total_refunded_amount` (default
"0.00") and a record for exactly the shortfall is created when the known
sum is below the remote total. -/
def handle_refund_apply (d : RefundDetail) (refunds : List RefundRecord) :
    List RefundRecord :=
  if strTruthy d.id then
    let step1 := refundDedupStep d refunds
    let knownSum := knownRefundSum step1
    let total := d.totalRefundedAmount.getD 0
    if knownSum < total then
      step1 ++ [⟨none, total - knownSum, RefundState.sourceExternal⟩]
    else step1
  else refunds

/-! ### Helper lemmas about the refund ledger -/

theorem knownRefundSum_append (l₁ l₂ : List RefundRecord) :
    knownRefundSum (l₁ ++ l₂) = knownRefundSum l₁ + knownRefundSum l₂ := by
  simp [knownRefundSum, List.filter_append]

theorem knownRefundSum_cons (r : RefundRecord) (l : List RefundRecord) :
    knownRefundSum (r :: l) =
      (if countsInSum r.state then r.amount else 0) + knownRefundSum l := by
  simp only [knownRefundSum, List.filter_cons]
  split <;> simp

theorem knownRefundSum_externalSingle (i : Option String) (a : ℚ) :
    knownRefundSum [⟨i, a, RefundState.sourceExternal⟩] = a := by
  simp [knownRefundSum, countsInSum]

theorem doneIfPending_info_id (r : RefundRecord) :
    (doneIfPending r).info_id = r.info_id := by
  rcases r with ⟨i, a, s⟩
  cases s <;> rfl

theorem doneIfPending_amount (r : RefundRecord) :
    (doneIfPending r).amount = r.amount := by
  rcases r with ⟨i, a, s⟩
  cases s <;> rfl

theorem countsInSum_doneIfPending (r : RefundRecord) :
    countsInSum (doneIfPending r).state = countsInSum r.state := by
  rcases r with ⟨i, a, s⟩
  cases s <;> rfl

theorem doneIfPending_idem (r : RefundRecord) :
    doneIfPending (doneIfPending r) = doneIfPending r := by
  rcases r with ⟨i, a, s⟩
  cases s <;> rfl

theorem hasId_cons (rid : Option String) (r : RefundRecord)
    (l : List RefundRecord) :
    hasId rid (r :: l) = ((r.info_id == rid) || hasId rid l) := by
  simp [hasId]

theorem hasId_append (rid : Option String) (l₁ l₂ : List RefundRecord) :
    hasId rid (l₁ ++ l₂) = (hasId rid l₁ || hasId rid l₂) := by
  simp [hasId, List.any_append]

theorem hasId_markLastDone (rid rid₂ : Option String)
    (l : List RefundRecord) :
    hasId rid (markLastDone rid₂ l) = hasId rid l := by
  induction l with
  | nil => rfl
  | cons r rs ih =>
    rw [markLastDone]
    split
    · rw [hasId_cons, hasId_cons, ih]
    · split
      · rw [hasId_cons, hasId_cons, doneIfPending_info_id]
      · rfl

theorem knownRefundSum_markLastDone (rid : Option String)
    (l : List RefundRecord) :
    knownRefundSum (markLastDone rid l) = knownRefundSum l := by
  induction l with
  | nil => rfl
  | cons r rs ih =>
    rw [markLastDone]
    split
    · rw [knownRefundSum_cons, knownRefundSum_cons, ih]
    · split
      · rw [knownRefundSum_cons, knownRefundSum_cons, doneIfPending_amount,
          countsInSum_doneIfPending]
      · rfl

theorem markLastDone_of_notHas (rid : Option String) (l : List RefundRecord)
    (h : hasId rid l = false) : markLastDone rid l = l := by
  induction l with
  | nil => rfl
  | cons r rs ih =>
    rw [hasId_cons, Bool.or_eq_false_iff] at h
    rw [markLastDone, if_neg (by simp [h.2]), if_neg (by simp [h.1])]

theorem markLastDone_append_right (rid : Option String)
    (l₁ l₂ : List RefundRecord) (h : hasId rid l₂ = true) :
    markLastDone rid (l₁ ++ l₂) = l₁ ++ markLastDone rid l₂ := by
  induction l₁ with
  | nil => rfl
  | cons r rs ih =>
    rw [List.cons_append, markLastDone, if_pos (by rw [hasId_append, h]; simp),
      ih, List.cons_append]

theorem markLastDone_append_notHas (rid : Option String)
    (l₁ l₂ : List RefundRecord) (h : hasId rid l₂ = false) :
    markLastDone rid (l₁ ++ l₂) = markLastDone rid l₁ ++ l₂ := by
  induction l₁ with
  | nil => rw [List.nil_append, markLastDone_of_notHas rid l₂ h]; rfl
  | cons r rs ih =>
    rw [List.cons_append, markLastDone, markLastDone, hasId_append, h,
      Bool.or_false]
    split
    · rw [ih, List.cons_append]
    · split <;> rw [List.cons_append]

theorem markLastDone_idem (rid : Option String) (l : List RefundRecord) :
    markLastDone rid (markLastDone rid l) = markLastDone rid l := by
  induction l with
  | nil => rfl
  | cons r rs ih =>
    rw [markLastDone]
    split
    · rename_i h
      rw [markLastDone, if_pos (by rw [hasId_markLastDone, h]), ih]
    · split
      · rename_i h hr
        rw [markLastDone, if_neg (by simp [h]),
          if_pos (by rw [doneIfPending_info_id]; exact hr), doneIfPending_idem]
      · rename_i h hr
        rw [markLastDone, if_neg (by simp [h]), if_neg (by simp at hr ⊢; exact hr)]

theorem strTruthy_some (o : Option String) (h : strTruthy o = true) :
    ∃ s, o = some s ∧ s ≠ "" := by
  cases o with
  | none => simp [strTruthy] at h
  | some s =>
    refine ⟨s, rfl, ?_⟩
    simpa [strTruthy] using h

theorem hasId_refundDedupStep (d : RefundDetail) (l : List RefundRecord) :
    hasId d.id (refundDedupStep d l) = true := by
  rw [refundDedupStep]
  split
  · rename_i h
    split
    · rw [hasId_markLastDone]; exact h
    · exact h
  · rw [hasId_append, hasId_cons]; simp

theorem knownRefundSum_dedup_ge (d : RefundDetail) (l : List RefundRecord)
    (h : strTruthy d.id = true) :
    d.totalRefundedAmount.getD 0 ≤
      knownRefundSum (handle_refund_apply d l) := by
  rw [handle_refund_apply, if_pos h]
  simp only []
  split
  · rw [knownRefundSum_append, knownRefundSum_externalSingle]
    linarith
  · rename_i hc
    exact le_of_not_lt hc

theorem hasId_apply (d : RefundDetail) (l : List RefundRecord)
    (h : strTruthy d.id = true) :
    hasId d.id (handle_refund_apply d l) = true := by
  rw [handle_refund_apply, if_pos h]
  simp only []
  split
  · rw [hasId_append, hasId_refundDedupStep]; rfl
  · exact hasId_refundDedupStep d l

theorem markLastDone_apply_of_completed (d : RefundDetail)
    (l : List RefundRecord) (hid : strTruthy d.id = true)
    (hst : (d.status.getD "" == "COMPLETED") = true) :
    markLastDone d.id (handle_refund_apply d l) = handle_refund_apply d l := by
  obtain ⟨s, hs, hne⟩ := strTruthy_some d.id hid
  have hshort : ∀ a : ℚ,
      hasId d.id [(⟨none, a, RefundState.sourceExternal⟩ : RefundRecord)]
        = false := by
    intro a
    rw [hs, hasId_cons]
    rfl
  have hstep : markLastDone d.id (refundDedupStep d l) = refundDedupStep d l := by
    by_cases hmem : hasId d.id l = true
    · rw [refundDedupStep, if_pos hmem, if_pos hst]
      exact markLastDone_idem d.id l
    · rw [refundDedupStep, if_neg hmem,
        markLastDone_append_right d.id l _ (by rw [hasId_cons]; simp),
        markLastDone, if_neg (by simp [hasId]), if_pos (by simp)]
      rfl
  rw [handle_refund_apply, if_pos hid]
  simp only []
  split
  · rw [markLastDone_append_notHas d.id _ _ (hshort _), hstep]
  · exact hstep

theorem refundDedupStep_apply (d : RefundDetail) (l : List RefundRecord)
    (h : strTruthy d.id = true) :
    refundDedupStep d (handle_refund_apply d l) = handle_refund_apply d l := by
  rw [refundDedupStep, if_pos (hasId_apply d l h)]
  split
  · exact markLastDone_apply_of_completed d l h (by assumption)
  · rfl

/-! ### Claim C1 -/

/-- Refund detail of the shortfall-creating event: refund R2 of 10, remote
total refunded amount 20 (R1 of 10 was also refunded remotely but its
webhook is delayed). -/
def c1DetailEarly : RefundDetail :=
  ⟨some "R2", some 10, some "COMPLETED", some 20⟩

/-- Refund detail of the delayed event for refund R1 of 10; the remote
total refunded amount is still 20, consistent with the provider's ledger
(R1 + R2 = 20). -/
def c1DetailLate : RefundDetail :=
  ⟨some "R1", some 10, some "COMPLETED", some 20⟩

/-- C1 counterexample: processing the event for R2 first books R2 (10) and
a shortfall record (10) for the not-yet-delivered R1; when R1's own event
then arrives, its id is unknown, a third record (10) is created, and the
known non-failed refund sum (30) exceeds the authoritative remote total
refunded amount (20) reported by the provider for that event. -/
theorem c1_counterexample :
    c1DetailLate.totalRefundedAmount.getD 0 <
      knownRefundSum (handle_refund_apply c1DetailLate
        (handle_refund_apply c1DetailEarly [])) := by
  simp +decide [c1DetailEarly, c1DetailLate, handle_refund_apply,
    refundDedupStep, strTruthy, hasId, markLastDone, doneIfPending,
    knownRefundSum, countsInSum]

/-- C1 (amended): after `handle_refund` processes a refund event with a
truthy refund id, the known non-failed refund sum is at least the remote
total refunded amount; and when the sum known after the de-duplication
step is below the remote total, a refund record for exactly the shortfall
is created, making the known sum equal the remote total.  (The original
claim's "never exceeds the remote total" fails: see the counterexample.) -/
theorem c1_refund_sum_reconciliation (d : RefundDetail)
    (rs : List RefundRecord) (h : strTruthy d.id = true) :
    d.totalRefundedAmount.getD 0 ≤ knownRefundSum (handle_refund_apply d rs) ∧
    (knownRefundSum (refundDedupStep d rs) < d.totalRefundedAmount.getD 0 →
      handle_refund_apply d rs = refundDedupStep d rs ++
        [⟨none,
          d.totalRefundedAmount.getD 0 - knownRefundSum (refundDedupStep d rs),
          RefundState.sourceExternal⟩] ∧
      knownRefundSum (handle_refund_apply d rs) =
        d.totalRefundedAmount.getD 0) := by
  refine ⟨knownRefundSum_dedup_ge d rs h, fun hlt => ⟨?_, ?_⟩⟩
  · rw [handle_refund_apply, if_pos h]
    simp only []
    rw [if_pos hlt]
  · rw [handle_refund_apply, if_pos h]
    simp only []
    rw [if_pos hlt, knownRefundSum_append, knownRefundSum_externalSingle]
    ring

/-- Refund detail used to instantiate the amended C1 theorem: refund RW of
4 against a remote total of 9, on a payment with no prior refunds. -/
def c1WitnessDetail : RefundDetail :=
  ⟨some "RW", some 4, some "COMPLETED", some 9⟩

/-- Witness for the amended C1 theorem at a concrete input. -/
theorem c1_refund_sum_reconciliation_witness :
    strTruthy c1WitnessDetail.id = true ∧
    (c1WitnessDetail.totalRefundedAmount.getD 0 ≤
        knownRefundSum (handle_refund_apply c1WitnessDetail []) ∧
      (knownRefundSum (refundDedupStep c1WitnessDetail []) <
          c1WitnessDetail.totalRefundedAmount.getD 0 →
        handle_refund_apply c1WitnessDetail [] = refundDedupStep c1WitnessDetail [] ++
          [⟨none, c1WitnessDetail.totalRefundedAmount.getD 0 -
              knownRefundSum (refundDedupStep c1WitnessDetail []),
            RefundState.sourceExternal⟩] ∧
        knownRefundSum (handle_refund_apply c1WitnessDetail []) =
          c1WitnessDetail.totalRefundedAmount.getD 0)) :=
  ⟨by decide, c1_refund_sum_reconciliation c1WitnessDetail [] (by decide)⟩

/-! ### Claim C7 -/

/-- C7: re-delivering the identical refund event (the provider reporting
the same refund detail both times) is a no-op on the payment's refund
collection: the second application of `handle_refund` changes nothing. -/
theorem c7_refund_redelivery_noop (d : RefundDetail) (rs : List RefundRecord) :
    handle_refund_apply d (handle_refund_apply d rs) =
      handle_refund_apply d rs := by
  by_cases h : strTruthy d.id = true
  · have hded := refundDedupStep_apply d rs h
    have hge := knownRefundSum_dedup_ge d rs h
    rw [handle_refund_apply, if_pos h]
    simp only []
    rw [hded, if_neg (not_lt.mpr hge)]
  · simp [handle_refund_apply, h]

/-! ### The signature verifier -/

/-- A transmission-time header value: either a well-formed ISO timestamp
whose parsed value is `t` (in seconds), or a string that
`datetime.fromisoformat` rejects with a `ValueError`. -/
inductive TimeHeader where
  | valid (t : ℤ)
  | malformed
deriving DecidableEq, Repr

/-- Presence of the five transmission headers read by
`check_webhook_signature` (`views.py` lines 193-199), with the value of
the `PAYPAL-TRANSMISSION-TIME` header when present. -/
structure WebhookHeaders where
  hasAuthAlgo : Bool
  hasCertUrl : Bool
  hasTransmissionId : Bool
  hasTransmissionSig : Bool
  transmissionTime : Option TimeHeader
deriving DecidableEq, Repr

/-- The `errors` object of a provider response, as consumed by the logging
calls (`errors["reason"]`). -/
structure ErrorInfo where
  reason : String
deriving DecidableEq, Repr

/-- The nested `response` body of a `verify_webhook_signature` reply. -/
structure VerifyBody where
  verification_status : Option String
deriving DecidableEq, Repr

/-- The reply of the external
`paypal_request_handler.verify_webhook_signature` capability: `errors` is
`some` exactly when the reply carries a truthy `errors` field. -/
structure VerifyResponse where
  errors : Option ErrorInfo
  response : Option VerifyBody
deriving DecidableEq, Repr

/-- Tags for uncaught Python exceptions escaping the webhook code. -/
inductive Crash where
  | valueErrorIsoTime
  | typeErrorLoggingErrors
  | keyError
  | attrErrorNonePayment
  | integrityErrorRPO
deriving DecidableEq, Repr

/-- `safe_get(verify_response, ["response", "verification_status"], "")`
(`views.py` line 227). -/
def verificationStatus (vr : VerifyResponse) : String :=
  match vr.response with
  | some b => b.verification_status.getD ""
  | none => ""

/-- `check_webhook_signature` (`views.py` lines 182-233): the boolean
result (or the uncaught exception), paired with whether the external
`verify_webhook_signature` capability was invoked.  Times are in seconds,
so `timedelta(minutes=7)` is `7 * 60`.  The failure branch logs
`errors["reason"]`, which raises a `TypeError` when the reply has no
errors field. -/
def check_webhook_signature (h : WebhookHeaders) (now : ℤ)
    (vr : VerifyResponse) : Except Crash Bool × Bool :=
  if !(h.hasAuthAlgo && h.hasCertUrl && h.hasTransmissionId &&
      h.hasTransmissionSig && h.transmissionTime.isSome) then
    (Except.ok false, false)
  else
    match h.transmissionTime with
    | none => (Except.ok false, false)
    | some TimeHeader.malformed => (Except.error Crash.valueErrorIsoTime, false)
    | some (TimeHeader.valid t) =>
      if 7 * 60 < now - t then (Except.ok false, false)
      else
        if vr.errors.isSome || verificationStatus vr == "FAILURE" then
          match vr.errors with
          | some _ => (Except.ok false, true)
          | none => (Except.error Crash.typeErrorLoggingErrors, true)
        else (Except.ok true, true)

/-! ### Claim C6 -/

/-- C6: with all five transmission headers present and a well-formed
transmission time, an event older than seven minutes is rejected without
invoking the external signature-check capability — in particular an event
sent eight minutes ago, whatever the verification reply — while an event
sent six minutes ago whose signature verifies (no errors, status SUCCESS)
is accepted. -/
theorem c6_freshness_window (now t : ℤ) (vr : VerifyResponse) :
    (7 * 60 < now - t →
      check_webhook_signature ⟨true, true, true, true,
        some (TimeHeader.valid t)⟩ now vr = (Except.ok false, false)) ∧
    (t = now - 8 * 60 →
      check_webhook_signature ⟨true, true, true, true,
        some (TimeHeader.valid t)⟩ now vr = (Except.ok false, false)) ∧
    (t = now - 6 * 60 → vr.errors = none →
      verificationStatus vr = "SUCCESS" →
      check_webhook_signature ⟨true, true, true, true,
        some (TimeHeader.valid t)⟩ now vr = (Except.ok true, true)) := by
  refine ⟨?_, ?_, ?_⟩
  · intro hs
    simp [check_webhook_signature, hs]
    intro h2
    exact absurd hs (by omega)
  · intro ht
    have hs : 7 * 60 < now - t := by omega
    simp [check_webhook_signature, hs]
    intro h2
    exact absurd hs (by omega)
  · intro ht he hstat
    have hs : ¬(7 * 60 < now - t) := by omega
    simp [check_webhook_signature, hs, he, hstat]
    omega

/-- A verification reply with no errors and status SUCCESS. -/
def c6GoodResponse : VerifyResponse := ⟨none, some ⟨some "SUCCESS"⟩⟩

/-- Witness for C6: at `now = 1000`, a transmission time of eight minutes
ago is rejected without invoking the verifier, and one of six minutes ago
with a valid signature is accepted. -/
theorem c6_freshness_window_witness :
    check_webhook_signature ⟨true, true, true, true,
        some (TimeHeader.valid (1000 - 8 * 60))⟩ 1000 c6GoodResponse =
      (Except.ok false, false) ∧
    check_webhook_signature ⟨true, true, true, true,
        some (TimeHeader.valid (1000 - 6 * 60))⟩ 1000 c6GoodResponse =
      (Except.ok true, true) :=
  ⟨(c6_freshness_window 1000 (1000 - 8 * 60) c6GoodResponse).2.1 rfl,
   (c6_freshness_window 1000 (1000 - 6 * 60) c6GoodResponse).2.2 rfl rfl rfl⟩

/-! ### Claim C5 -/

/-- A verification reply with no errors field and the non-SUCCESS status
PENDING. -/
def c5PendingResponse : VerifyResponse := ⟨none, some ⟨some "PENDING"⟩⟩

/-- C5 counterexample: with the five headers present and a fresh
transmission time, a verification reply whose status is PENDING — a
non-SUCCESS status with no error field — is accepted: the verifier
returns true, where the claim requires false for any non-SUCCESS
status. -/
theorem c5_counterexample :
    verificationStatus c5PendingResponse ≠ "SUCCESS" ∧
    check_webhook_signature ⟨true, true, true, true,
        some (TimeHeader.valid 0)⟩ 60 c5PendingResponse =
      (Except.ok true, true) := by
  exact ⟨by decide, rfl⟩

/-- C5 (amended): for a webhook whose five transmission headers are
present and fresh, the verifier returns false exactly when the external
verification reply carries an error field; a status of FAILURE without an
error field makes the failure-logging itself raise; and any other status,
including non-SUCCESS statuses, yields true. -/
theorem c5_failure_handling (now t : ℤ) (vr : VerifyResponse)
    (hfresh : now - t ≤ 7 * 60) :
    (vr.errors.isSome = true →
      check_webhook_signature ⟨true, true, true, true,
        some (TimeHeader.valid t)⟩ now vr = (Except.ok false, true)) ∧
    (vr.errors = none → verificationStatus vr = "FAILURE" →
      check_webhook_signature ⟨true, true, true, true,
        some (TimeHeader.valid t)⟩ now vr =
        (Except.error Crash.typeErrorLoggingErrors, true)) ∧
    (vr.errors = none → verificationStatus vr ≠ "FAILURE" →
      check_webhook_signature ⟨true, true, true, true,
        some (TimeHeader.valid t)⟩ now vr = (Except.ok true, true)) := by
  have hs : ¬(7 * 60 < now - t) := not_lt.mpr hfresh
  refine ⟨?_, ?_, ?_⟩
  · intro he
    match hv : vr.errors with
    | some e => simp [check_webhook_signature, hs, hv]; omega
    | none => rw [hv] at he; simp at he
  · intro he hstat
    simp [check_webhook_signature, hs, he, hstat]
    omega
  · intro he hstat
    simp [check_webhook_signature, hs, he, hstat]
    omega

/-- A verification reply carrying an error field. -/
def c5ErrResponse : VerifyResponse := ⟨some ⟨"bad sig"⟩, some ⟨some "FAILURE"⟩⟩

/-- A verification reply with status FAILURE and no error field. -/
def c5FailureNoErr : VerifyResponse := ⟨none, some ⟨some "FAILURE"⟩⟩

/-- A verification reply with no errors and status SUCCESS. -/
def c5OkResponse : VerifyResponse := ⟨none, some ⟨some "SUCCESS"⟩⟩

/-- Witness for the amended C5 theorem at concrete inputs. -/
theorem c5_failure_handling_witness :
    check_webhook_signature ⟨true, true, true, true,
        some (TimeHeader.valid 0)⟩ 60 c5ErrResponse = (Except.ok false, true) ∧
    check_webhook_signature ⟨true, true, true, true,
        some (TimeHeader.valid 0)⟩ 60 c5FailureNoErr =
      (Except.error Crash.typeErrorLoggingErrors, true) ∧
    check_webhook_signature ⟨true, true, true, true,
        some (TimeHeader.valid 0)⟩ 60 c5OkResponse = (Except.ok true, true) :=
  ⟨(c5_failure_handling 60 0 c5ErrResponse (by norm_num)).1 rfl,
   (c5_failure_handling 60 0 c5FailureNoErr (by norm_num)).2.1 rfl rfl,
   (c5_failure_handling 60 0 c5OkResponse (by norm_num)).2.2 rfl (by decide)⟩

/-! ### Claim C9 -/

/-- C9 counterexample: all five headers present but the transmission-time
header is not a well-formed timestamp: `datetime.fromisoformat` raises a
`ValueError`, which propagates to the caller instead of a boolean being
returned. -/
theorem c9_counterexample :
    (check_webhook_signature ⟨true, true, true, true,
        some TimeHeader.malformed⟩ 0 ⟨none, none⟩).1 =
      Except.error Crash.valueErrorIsoTime := rfl

/-- C9 (amended): the verifier returns a boolean for every input except
the two crash cases: a present but malformed transmission-time header,
and a verification reply with status FAILURE but no errors field (the
logging of the failure reason dereferences the absent errors object);
outside those cases it never raises to its caller. -/
theorem c9_no_raise (h : WebhookHeaders) (now : ℤ) (vr : VerifyResponse)
    (hmt : h.transmissionTime ≠ some TimeHeader.malformed)
    (hfe : ¬(vr.errors = none ∧ verificationStatus vr = "FAILURE")) :
    ∃ b, (check_webhook_signature h now vr).1 = Except.ok b := by
  rcases h with ⟨a, c, i, g, tt⟩
  match tt with
  | none => exact ⟨false, by simp [check_webhook_signature]⟩
  | some TimeHeader.malformed => exact absurd rfl hmt
  | some (TimeHeader.valid t) =>
    by_cases hb : (a && c && i && g) = true
    · by_cases hfr : (420 : ℤ) < now - t
      · exact ⟨false, by simp [check_webhook_signature, hb, hfr]⟩
      · match he : vr.errors with
        | some e => exact ⟨false, by simp [check_webhook_signature, hb, hfr, he]⟩
        | none =>
          have hst : ¬verificationStatus vr = "FAILURE" := fun hc => hfe ⟨he, hc⟩
          exact ⟨true, by simp [check_webhook_signature, hb, hfr, he, hst]⟩
    · have hb' : (a && c && i && g) = false := by
        revert hb; cases (a && c && i && g) <;> simp
      exact ⟨false, by simp [check_webhook_signature, hb']⟩

/-- Witness for the amended C9 theorem at a concrete input. -/
theorem c9_no_raise_witness :
    ∃ b, (check_webhook_signature ⟨true, true, true, true,
        some (TimeHeader.valid 0)⟩ 60 ⟨none, some ⟨some "SUCCESS"⟩⟩).1 =
      Except.ok b :=
  c9_no_raise ⟨true, true, true, true, some (TimeHeader.valid 0)⟩ 60
    ⟨none, some ⟨some "SUCCESS"⟩⟩ (by decide) (by decide)

/-! ### Orders, payments and the capture-progress path -/

/-- Payment lifecycle states of `OrderPayment`. -/
inductive PayState where
  | created
  | pending
  | confirmed
  | canceled
  | failed
  | refunded
deriving DecidableEq, Repr

/-- Externally observable operations of the webhook handler, in the order
they are performed. -/
inductive Step where
  | referenceLookup
  | verifySignature
  | fetchOrder
  | logAction
  | fetchRefund
  | executePayment
  | setInfo
  | confirmPayment
deriving DecidableEq, Repr

/-- One capture of a purchase unit: `capture.get("id")` and
`capture.get("status")`. -/
structure Capture where
  id : Option String
  status : Option String
deriving DecidableEq, Repr

/-- A purchase unit of the order detail;
`safe_get(purchase_unit, ["payment", "captures"], [])` (`views.py` line
447) yields its capture list, empty when the nested keys are absent. -/
structure PurchaseUnit where
  captures : List Capture
deriving DecidableEq, Repr

/-- The remote order detail returned by `get_order`, with the fields the
webhook reads: `id`, `status` (`none` models the key being absent, which
the direct `order_detail["status"]` subscription at `views.py` line 470
turns into a `KeyError`), and `purchase_units` (default `[]`). -/
structure OrderDetail where
  id : Option String
  status : Option String
  purchase_units : List PurchaseUnit
deriving DecidableEq, Repr

/-- An internal payment (`OrderPayment`): primary key, owning order and
its event, `info_data.get("id")`, lifecycle state, amount, refund
records, and the stored provider info written by
`payment.info = json.dumps(order_detail)`. -/
structure Payment where
  pk : ℕ
  orderId : ℕ
  eventId : ℕ
  infoId : Option String
  state : PayState
  amount : ℚ
  refunds : List RefundRecord
  info : Option OrderDetail
deriving DecidableEq, Repr

/-- A `ReferencedPayPalObject` row: unique non-null `reference`
(migration `0001_initial`), the owning order and its event, and the
nullable payment (migration `0002_initial`). -/
structure RPOEntry where
  reference : String
  eventId : ℕ
  orderId : ℕ
  payment : Option Payment
deriving DecidableEq, Repr

/-- `capture.get("status") in ("COMPLETED", "REFUNDED",
"PARTIALLY_REFUNDED")` (`views.py` lines 456-460); a missing status is in
neither. -/
def goodCaptureStatus (s : Option String) : Bool :=
  s == some "COMPLETED" || s == some "REFUNDED" ||
    s == some "PARTIALLY_REFUNDED"

/-- `ReferencedPayPalObject.objects.get_or_create(order=payment.order,
payment=payment, reference=capture.get("id"))` (`views.py` lines
448-455): found when a row matches all three fields; otherwise a row is
inserted, which the database rejects (an `IntegrityError`, which unlike
`MultipleObjectsReturned` is not suppressed) when the reference is NULL
or already used by a different row. -/
def getOrCreateRPO (p : Payment) (ref : Option String)
    (store : List RPOEntry) : Except Crash (List RPOEntry) :=
  match ref with
  | none => Except.error Crash.integrityErrorRPO
  | some r =>
    if store.any (fun e => e.reference == r && e.orderId == p.orderId &&
        e.payment == some p) then
      Except.ok store
    else if store.any (fun e => e.reference == r) then
      Except.error Crash.integrityErrorRPO
    else
      Except.ok (store ++ [⟨r, p.eventId, p.orderId, some p⟩])

/-- The capture loop of `handle_payment_state_pending` (`views.py` lines
444-463): per capture, upsert the `ReferencedPayPalObject`, then update
the `captured` / `captures_completed` flags.  An error carries the table
as mutated so far. -/
def capturesLoop (p : Payment) :
    List Capture → List RPOEntry → Bool → Bool →
      Except (Crash × List RPOEntry) (List RPOEntry × Bool × Bool)
  | [], store, captured, completed => Except.ok (store, captured, completed)
  | c :: cs, store, captured, completed =>
    match getOrCreateRPO p c.id store with
    | Except.error e => Except.error (e, store)
    | Except.ok store' =>
      if goodCaptureStatus c.status then capturesLoop p cs store' true completed
      else capturesLoop p cs store' captured false

/-- The result of `handle_payment_state_pending`: the possibly mutated
payment, the `ReferencedPayPalObject` table, and the external operations
performed. -/
structure PendingOut where
  payment : Payment
  store : List RPOEntry
  trace : List Step
deriving DecidableEq, Repr

/-- All captures of an order detail, across its purchase units (the
nested loop of `views.py` lines 446-447). -/
def orderCaptures (od : OrderDetail) : List Capture :=
  (od.purchase_units.map (fun u => u.captures)).flatten

/-- `handle_payment_state_pending` (`views.py` lines 433-468).  On remote
status APPROVED the payment-execution flow is triggered (an external
call whose failures are only logged).  On remote status COMPLETED the
capture loop runs; when at least one capture and every capture reached
COMPLETED/REFUNDED/PARTIALLY_REFUNDED, the full order detail is stored
as the payment's provider info and the payment is confirmed —
`payment.confirm()` raising the quota-exceeded conflict (`quotaOk =
false`) is suppressed, leaving the info stored but the state
unchanged. -/
def handle_payment_state_pending (od : OrderDetail) (p : Payment)
    (store : List RPOEntry) (quotaOk : Bool) :
    Except (Crash × List RPOEntry) PendingOut :=
  if od.status == some "APPROVED" then
    Except.ok ⟨p, store, [Step.executePayment]⟩
  else if od.status == some "COMPLETED" then
    match capturesLoop p (orderCaptures od) store false true with
    | Except.error e => Except.error e
    | Except.ok (store', captured, completed) =>
      if captured && completed then
        if quotaOk then
          Except.ok ⟨{ p with info := some od, state := PayState.confirmed },
            store', [Step.setInfo, Step.confirmPayment]⟩
        else
          Except.ok ⟨{ p with info := some od }, store', [Step.setInfo]⟩
      else Except.ok ⟨p, store', []⟩
  else Except.ok ⟨p, store, []⟩

/-! ### Helper lemmas about the capture-progress path -/

theorem getOrCreateRPO_ok (p : Payment) (r : String) (store : List RPOEntry)
    (hcompat : ∀ e ∈ store, e.reference = r →
      e.orderId = p.orderId ∧ e.payment = some p) :
    ∃ store', getOrCreateRPO p (some r) store = Except.ok store' ∧
      (∃ e ∈ store', e.reference = r ∧ e.orderId = p.orderId ∧
        e.payment = some p) ∧
      (∀ e ∈ store', e ∈ store ∨ e = ⟨r, p.eventId, p.orderId, some p⟩) ∧
      (∀ e ∈ store, e ∈ store') := by
  by_cases h1 : store.any (fun e => e.reference == r &&
      e.orderId == p.orderId && e.payment == some p) = true
  · refine ⟨store, ?_, ?_, fun e he => Or.inl he, fun e he => he⟩
    · rw [getOrCreateRPO, if_pos h1]
    · obtain ⟨e, he, hpred⟩ := List.any_eq_true.mp h1
      simp only [Bool.and_eq_true, beq_iff_eq] at hpred
      exact ⟨e, he, hpred.1.1, hpred.1.2, hpred.2⟩
  · have h2 : store.any (fun e => e.reference == r) = false := by
      by_contra hc
      rw [Bool.not_eq_false, List.any_eq_true] at hc
      obtain ⟨e, he, hr⟩ := hc
      rw [beq_iff_eq] at hr
      obtain ⟨ho, hp⟩ := hcompat e he hr
      exact h1 (List.any_eq_true.mpr ⟨e, he, by simp [hr, ho, hp]⟩)
    refine ⟨store ++ [⟨r, p.eventId, p.orderId, some p⟩], ?_, ?_, ?_, ?_⟩
    · rw [getOrCreateRPO, if_neg h1, if_neg (by simp [h2])]
    · exact ⟨⟨r, p.eventId, p.orderId, some p⟩,
        List.mem_append_right _ (List.mem_singleton.mpr rfl), rfl, rfl, rfl⟩
    · intro e he
      rcases List.mem_append.mp he with h | h
      · exact Or.inl h
      · exact Or.inr (List.mem_singleton.mp h)
    · intro e he
      exact List.mem_append_left _ he

theorem capturesLoop_ok (p : Payment) (cs : List Capture) :
    ∀ (store : List RPOEntry) (cap comp : Bool),
    (∀ c ∈ cs, c.id.isSome = true) →
    (∀ c ∈ cs, ∀ e ∈ store, c.id = some e.reference →
      e.orderId = p.orderId ∧ e.payment = some p) →
    ∃ store', capturesLoop p cs store cap comp =
        Except.ok (store',
          cap || cs.any (fun c => goodCaptureStatus c.status),
          comp && cs.all (fun c => goodCaptureStatus c.status)) ∧
      (∀ c ∈ cs, ∃ e ∈ store', c.id = some e.reference ∧
        e.orderId = p.orderId ∧ e.payment = some p) ∧
      (∀ e ∈ store', e ∈ store ∨
        (e.orderId = p.orderId ∧ e.payment = some p)) ∧
      (∀ e ∈ store, e ∈ store') := by
  induction cs with
  | nil =>
    intro store cap comp _ _
    exact ⟨store, by simp [capturesLoop], by simp, fun e he => Or.inl he,
      fun e he => he⟩
  | cons c cs ih =>
    intro store cap comp hids hcompat
    obtain ⟨r, hr⟩ :=
      Option.isSome_iff_exists.mp (hids c (List.mem_cons_self c cs))
    have hcompat_c : ∀ e ∈ store, e.reference = r →
        e.orderId = p.orderId ∧ e.payment = some p := by
      intro e he her
      exact hcompat c (List.mem_cons_self c cs) e he (by rw [hr, her])
    obtain ⟨store1, hoc, ⟨eC, heC, heCr, heCo, heCp⟩, hnew, hsub⟩ :=
      getOrCreateRPO_ok p r store hcompat_c
    have hids2 : ∀ c' ∈ cs, c'.id.isSome = true :=
      fun c' hc' => hids c' (List.mem_cons_of_mem c hc')
    have hcompat2 : ∀ c' ∈ cs, ∀ e ∈ store1, c'.id = some e.reference →
        e.orderId = p.orderId ∧ e.payment = some p := by
      intro c' hc' e he hid
      rcases hnew e he with h | h
      · exact hcompat c' (List.mem_cons_of_mem c hc') e h hid
      · subst h; exact ⟨rfl, rfl⟩
    have hunfold : capturesLoop p (c :: cs) store cap comp =
        (if goodCaptureStatus c.status then capturesLoop p cs store1 true comp
         else capturesLoop p cs store1 cap false) := by
      rw [capturesLoop, hr, hoc]
    by_cases hg : goodCaptureStatus c.status = true
    · obtain ⟨store2, hrec, hmem, hpres, hgrow⟩ :=
        ih store1 true comp hids2 hcompat2
      refine ⟨store2, ?_, ?_, ?_, ?_⟩
      · rw [hunfold, if_pos hg, hrec]
        simp [hg, List.any_cons, List.all_cons]
      · intro c' hc'
        rcases List.mem_cons.mp hc' with h | h
        · subst h
          exact ⟨eC, hgrow eC heC, by rw [hr, heCr], heCo, heCp⟩
        · exact hmem c' h
      · intro e he
        rcases hpres e he with h | h
        · rcases hnew e h with h2 | h2
          · exact Or.inl h2
          · subst h2; exact Or.inr ⟨rfl, rfl⟩
        · exact Or.inr h
      · intro e he
        exact hgrow e (hsub e he)
    · have hg2 : goodCaptureStatus c.status = false := by
        revert hg; cases goodCaptureStatus c.status <;> simp
      obtain ⟨store2, hrec, hmem, hpres, hgrow⟩ :=
        ih store1 cap false hids2 hcompat2
      refine ⟨store2, ?_, ?_, ?_, ?_⟩
      · rw [hunfold, if_neg (by simp [hg2]), hrec]
        simp [hg2, List.any_cons, List.all_cons]
      · intro c' hc'
        rcases List.mem_cons.mp hc' with h | h
        · subst h
          exact ⟨eC, hgrow eC heC, by rw [hr, heCr], heCo, heCp⟩
        · exact hmem c' h
      · intro e he
        rcases hpres e he with h | h
        · rcases hnew e h with h2 | h2
          · exact Or.inl h2
          · subst h2; exact Or.inr ⟨rfl, rfl⟩
        · exact Or.inr h
      · intro e he
        exact hgrow e (hsub e he)

/-! ### Claim C3 -/

/-- C3: for a payment handled on the capture-progress path, when the
fetched remote order detail has status COMPLETED with at least one
capture and every capture in COMPLETED/REFUNDED/PARTIALLY_REFUNDED, a
`ReferencedPayPalObject` is created (or found existing) for each capture
id, the full order detail is stored as the payment's provider info, and
the payment is confirmed (absent a quota conflict); if any capture is in
another status, the payment is left untouched — no confirmation, no info
write.  The crash-freedom hypotheses say each capture has an id and no
existing row binds such an id to a different order/payment. -/
theorem c3_capture_gating (od : OrderDetail) (p : Payment)
    (store : List RPOEntry) (quotaOk : Bool)
    (hst : od.status = some "COMPLETED")
    (hids : ∀ c ∈ orderCaptures od, c.id.isSome = true)
    (hcompat : ∀ c ∈ orderCaptures od, ∀ e ∈ store,
      c.id = some e.reference → e.orderId = p.orderId ∧ e.payment = some p) :
    (orderCaptures od ≠ [] →
      (∀ c ∈ orderCaptures od, goodCaptureStatus c.status = true) →
      quotaOk = true →
      ∃ out, handle_payment_state_pending od p store quotaOk = Except.ok out ∧
        out.payment.state = PayState.confirmed ∧
        out.payment.info = some od ∧
        ∀ c ∈ orderCaptures od, ∃ e ∈ out.store, c.id = some e.reference ∧
          e.orderId = p.orderId ∧ e.payment = some p) ∧
    ((∃ c ∈ orderCaptures od, goodCaptureStatus c.status = false) →
      ∃ out, handle_payment_state_pending od p store quotaOk = Except.ok out ∧
        out.payment = p) := by
  obtain ⟨store', hloop, hmem, hpres, hgrow⟩ :=
    capturesLoop_ok p (orderCaptures od) store false true hids hcompat
  have happr : (od.status == some "APPROVED") = false := by rw [hst]; rfl
  have hcompl : (od.status == some "COMPLETED") = true := by rw [hst]; rfl
  constructor
  · intro hne hall hq
    subst hq
    obtain ⟨c0, hc0⟩ := List.exists_mem_of_ne_nil _ hne
    have hany : (orderCaptures od).any
        (fun c => goodCaptureStatus c.status) = true :=
      List.any_eq_true.mpr ⟨c0, hc0, hall c0 hc0⟩
    have hallb : (orderCaptures od).all
        (fun c => goodCaptureStatus c.status) = true :=
      List.all_eq_true.mpr hall
    refine ⟨⟨{ p with info := some od, state := PayState.confirmed }, store',
      [Step.setInfo, Step.confirmPayment]⟩, ?_, rfl, rfl, hmem⟩
    rw [handle_payment_state_pending, if_neg (by simp [happr]),
      if_pos (by simp [hcompl]), hloop]
    simp [hany, hallb]
  · intro ⟨c0, hc0, hbad⟩
    have hallb : (orderCaptures od).all
        (fun c => goodCaptureStatus c.status) = false := by
      rw [List.all_eq_false]
      exact ⟨c0, hc0, by simp [hbad]⟩
    refine ⟨⟨p, store', []⟩, ?_, rfl⟩
    rw [handle_payment_state_pending, if_neg (by simp [happr]),
      if_pos (by simp [hcompl]), hloop]
    simp [hallb]

/-- A remote order detail with one purchase unit holding a single
COMPLETED capture CAP1. -/
def c3Order : OrderDetail :=
  ⟨some "ORD1", some "COMPLETED", [⟨[⟨some "CAP1", some "COMPLETED"⟩]⟩]⟩

/-- A pending payment with no prior refunds and no stored info. -/
def c3Payment : Payment :=
  ⟨1, 10, 100, some "ORD1", PayState.pending, 50, [], none⟩

/-- Witness for C3 at a concrete input: an empty reference table, a
pending payment, and a COMPLETED order with one COMPLETED capture. -/
theorem c3_capture_gating_witness :
    (orderCaptures c3Order ≠ [] →
      (∀ c ∈ orderCaptures c3Order, goodCaptureStatus c.status = true) →
      true = true →
      ∃ out, handle_payment_state_pending c3Order c3Payment [] true =
          Except.ok out ∧
        out.payment.state = PayState.confirmed ∧
        out.payment.info = some c3Order ∧
        ∀ c ∈ orderCaptures c3Order, ∃ e ∈ out.store,
          c.id = some e.reference ∧ e.orderId = c3Payment.orderId ∧
          e.payment = some c3Payment) ∧
    ((∃ c ∈ orderCaptures c3Order, goodCaptureStatus c.status = false) →
      ∃ out, handle_payment_state_pending c3Order c3Payment [] true =
          Except.ok out ∧
        out.payment = c3Payment) :=
  c3_capture_gating c3Order c3Payment [] true rfl
    (by simp [orderCaptures, c3Order])
    (by intro c hc e he; simp at he)

/-! ### Event resolution and the webhook pipeline -/

/-- A link object of a refund resource (`resource.links`). -/
structure Link where
  rel : String
  href : String
deriving DecidableEq, Repr

/-- The decoded webhook payload, with the fields the handler reads:
`resource_type`, `resource.id` and `resource.links` (`none` models the
key being absent, which the direct subscriptions
`event_json["resource"]["id"]` and `event_json["resource"]["links"]`
turn into a `KeyError`), and the related order id reached through
`safe_get(event_json, ["resource", "supplementary_data", "related_ids",
"order_id"])`. -/
structure EventJson where
  resource_type : String
  resource_id : Option String
  links : Option (List Link)
  relatedOrderId : Option String
deriving DecidableEq, Repr

/-- A provider fetch outcome: the decoded `response` of the reply, or its
`errors` object. -/
inductive FetchResult (α : Type) where
  | ok (a : α)
  | err (e : ErrorInfo)
deriving DecidableEq, Repr

/-- Python's `str.split(sep)` on a character list, for a one-character
separator: `"".split("/")` is `[""]` and separators at either end
produce empty fields. -/
def splitOnChar (sep : Char) : List Char → List (List Char)
  | [] => [[]]
  | c :: rest =>
    let r := splitOnChar sep rest
    if c = sep then [] :: r
    else
      match r with
      | [] => [[c]]
      | g :: gs => (c :: g) :: gs

/-- Python's `str.split(sep)` for a one-character separator. -/
def pySplit (sep : Char) (s : String) : List String :=
  (splitOnChar sep s.data).map (fun g => String.mk g)

/-- `refund_url.split("/")[-1]` for the first link whose rel is `up`
(`views.py` lines 246-251); `none` when no such link exists, in which
case `payment_id` stays `None`. -/
def refundUpPaymentId (ls : List Link) : Option String :=
  match ls.find? (fun l => l.rel == "up") with
  | some l => some ((pySplit '/' l.href).getLastD "")
  | none => none

/-- The payment-id derivation of `parse_webhook_event` (`views.py` lines
244-253): for refund resources, the id ending the `up` link's href;
otherwise the resource's own id. -/
def derivePaymentId (ej : EventJson) : Except Crash (Option String) :=
  if ej.resource_type == "refund" then
    match ej.links with
    | none => Except.error Crash.keyError
    | some ls => Except.ok (refundUpPaymentId ls)
  else
    match ej.resource_id with
    | none => Except.error Crash.keyError
    | some i => Except.ok (some i)

/-- The candidate reference list of `views.py` lines 255-264: the primary
payment id plus, when truthy, the nested related order id. -/
def candidateReferences (pid : Option String) (ej : EventJson) :
    List (Option String) :=
  pid :: (if strTruthy ej.relatedOrderId then [ej.relatedOrderId] else [])

/-- `parse_webhook_event` (`views.py` lines 236-280): derive the payment
id, build the candidate references, take the first matching
`ReferencedPayPalObject` row; on a match the event context is the row's
order's event and the payment id is normalised to the row's payment's
own provider-side id when present — reading `rpo.payment.info_data`,
which is an unhandled `AttributeError` when the row's nullable payment
is NULL; with no match, fall back to the ambient request's event. -/
def parse_webhook_event (reqEvent : Option ℕ) (ej : EventJson)
    (store : List RPOEntry) :
    Except Crash (Option ℕ × Option String × Option RPOEntry) :=
  match derivePaymentId ej with
  | Except.error c => Except.error c
  | Except.ok paymentId =>
    match store.find? (fun e =>
        (candidateReferences paymentId ej).contains (some e.reference)) with
    | some e =>
      match e.payment with
      | none => Except.error Crash.attrErrorNonePayment
      | some p =>
        Except.ok (some e.eventId,
          (match p.infoId with
           | some i => some i
           | none => paymentId),
          some e)
    | none => Except.ok (reqEvent, paymentId, none)

/-- `handle_refund` (`views.py` lines 365-416): fetch the refund detail;
on a provider error a 400 response object is built and returned (the
second component) — which the caller discards — otherwise the refund
ledger is updated and no response object is produced. -/
def handle_refund (rf : FetchResult RefundDetail)
    (refunds : List RefundRecord) : List RefundRecord × Option ℕ :=
  match rf with
  | FetchResult.err _ => (refunds, some 400)
  | FetchResult.ok d => (handle_refund_apply d refunds, none)

/-- `handle_payment_state_confirmed` (`views.py` lines 418-431): for a
refund resource, run `handle_refund` — its returned response object is
discarded — otherwise, on remote order status REFUNDED, book the
shortfall between the known refund sum and the payment amount. -/
def handle_payment_state_confirmed (resourceType : String)
    (od : OrderDetail) (rf : FetchResult RefundDetail) (p : Payment) :
    Payment × List Step :=
  if resourceType == "refund" then
    ({ p with refunds := (handle_refund rf p.refunds).1 }, [Step.fetchRefund])
  else if od.status == some "REFUNDED" then
    let knownSum := knownRefundSum p.refunds
    if knownSum < p.amount then
      ({ p with refunds := p.refunds ++
        [⟨none, p.amount - knownSum, RefundState.sourceExternal⟩] }, [])
    else (p, [])
  else (p, [])

/-- `extract_order_and_payment` (`views.py` lines 283-330): fetch the
order detail (a provider error yields `(None, None)`), then resolve the
payment: the matched reference row's payment when present, else the
result of the ORM candidate search over stored `OrderPayment` rows
(`views.py` lines 310-328), an external query abstracted here as the
`fallback` input. -/
def extract_order_and_payment (orderFetch : FetchResult OrderDetail)
    (rpo : Option RPOEntry) (fallback : Option Payment) :
    Option OrderDetail × Option Payment :=
  match orderFetch with
  | FetchResult.err _ => (none, none)
  | FetchResult.ok od =>
    match rpo with
    | some e =>
      match e.payment with
      | some p => (some od, some p)
      | none => (some od, fallback)
    | none => (some od, fallback)

/-- Everything one webhook delivery depends on: the ambient request event
(when the endpoint is scoped), the decoded payload, the
`ReferencedPayPalObject` table, the transmission headers and current
time, and the external collaborator responses (signature verification,
order fetch, refund fetch, the ORM payment search, quota
availability). -/
structure WebhookInput where
  reqEvent : Option ℕ
  eventJson : EventJson
  store : List RPOEntry
  headers : WebhookHeaders
  now : ℤ
  verifyResponse : VerifyResponse
  orderFetch : FetchResult OrderDetail
  refundFetch : FetchResult RefundDetail
  fallbackPayment : Option Payment
  quotaOk : Bool
deriving Repr

/-- The outcome of one webhook delivery: the HTTP status (or the uncaught
exception), the ordered external operations performed, the final
`ReferencedPayPalObject` table, and the resolved payment's final state
(none when no payment was resolved). -/
structure WebhookOut where
  response : Except Crash ℕ
  trace : List Step
  store : List RPOEntry
  payment : Option Payment
deriving Repr

/-- The webhook view (`views.py` lines 333-482): resource-type filter,
event resolution, signature verification, order/payment extraction, the
dispatch on payment state, and the final unconditional 200.  Note the
order: `parse_webhook_event` runs before `check_webhook_signature`, and
the response object built inside `handle_refund` on a fetch failure is
discarded by `handle_payment_state_confirmed`. -/
def webhook (inp : WebhookInput) : WebhookOut :=
  if !(["checkout-order", "refund", "capture"].contains
      inp.eventJson.resource_type) then
    ⟨Except.ok 400, [], inp.store, none⟩
  else
    match parse_webhook_event inp.reqEvent inp.eventJson inp.store with
    | Except.error c =>
      ⟨Except.error c, [Step.referenceLookup], inp.store, none⟩
    | Except.ok (none, _, _) =>
      ⟨Except.ok 400, [Step.referenceLookup], inp.store, none⟩
    | Except.ok (some _, _, rpo) =>
      match check_webhook_signature inp.headers inp.now inp.verifyResponse with
      | (Except.error c, invoked) =>
        ⟨Except.error c, Step.referenceLookup ::
          (if invoked then [Step.verifySignature] else []), inp.store, none⟩
      | (Except.ok false, invoked) =>
        ⟨Except.ok 400, Step.referenceLookup ::
          (if invoked then [Step.verifySignature] else []), inp.store, none⟩
      | (Except.ok true, invoked) =>
        let tr := Step.referenceLookup ::
          ((if invoked then [Step.verifySignature] else []) ++
            [Step.fetchOrder])
        match extract_order_and_payment inp.orderFetch rpo
            inp.fallbackPayment with
        | (none, _) => ⟨Except.ok 400, tr, inp.store, none⟩
        | (some _, none) => ⟨Except.ok 400, tr, inp.store, none⟩
        | (some od, some p) =>
          let tr2 := tr ++ [Step.logAction]
          if p.state == PayState.confirmed then
            match od.status with
            | none => ⟨Except.error Crash.keyError, tr2, inp.store, some p⟩
            | some st =>
              if st == "PARTIALLY_REFUNDED" || st == "REFUNDED" ||
                  st == "COMPLETED" then
                let pt := handle_payment_state_confirmed
                  inp.eventJson.resource_type od inp.refundFetch p
                ⟨Except.ok 200, tr2 ++ pt.2, inp.store, some pt.1⟩
              else ⟨Except.ok 200, tr2, inp.store, some p⟩
          else if p.state == PayState.pending || p.state == PayState.created ||
              p.state == PayState.canceled || p.state == PayState.failed then
            match handle_payment_state_pending od p inp.store inp.quotaOk with
            | Except.error (c, st') => ⟨Except.error c, tr2, st', some p⟩
            | Except.ok out =>
              ⟨Except.ok 200, tr2 ++ out.trace, out.store, some out.payment⟩
          else ⟨Except.ok 200, tr2, inp.store, some p⟩

/-! ### Claim C8 -/

/-- C8: an inbound webhook whose declared resource type is not one of
checkout-order/refund/capture is answered 400 Bad Request with no side
effects: the reference index is never consulted (empty trace), the
reference table is unchanged and no payment is touched. -/
theorem c8_unsupported_resource_type (inp : WebhookInput)
    (h : inp.eventJson.resource_type ∉
      ["checkout-order", "refund", "capture"]) :
    webhook inp = ⟨Except.ok 400, [], inp.store, none⟩ := by
  have hc : (["checkout-order", "refund", "capture"].contains
      inp.eventJson.resource_type) = false := by
    simpa using h
  rw [webhook, if_pos (by rw [hc]; rfl)]

/-- An event of the unsupported resource type `payment.capture.pending`. -/
def c8Input : WebhookInput :=
  ⟨none, ⟨"payment.capture.pending", some "X", none, none⟩, [],
    ⟨true, true, true, true, some (TimeHeader.valid 0)⟩, 0,
    ⟨none, none⟩, FetchResult.err ⟨"unused"⟩, FetchResult.err ⟨"unused"⟩,
    none, true⟩

/-- Witness for C8 at a concrete input. -/
theorem c8_unsupported_resource_type_witness :
    webhook c8Input = ⟨Except.ok 400, [], c8Input.store, none⟩ :=
  c8_unsupported_resource_type c8Input (by decide)

/-! ### Claim C4 -/

/-- The confirmed payment resolved by the C4 event. -/
def c4Payment : Payment :=
  ⟨1, 10, 100, some "ORD1", PayState.confirmed, 50, [], none⟩

/-- A capture event whose signature verification fails (errors field in
the verification reply), with a matching reference row in the table. -/
def c4Input : WebhookInput :=
  ⟨none, ⟨"capture", some "CAP1", none, none⟩,
    [⟨"CAP1", 100, 10, some c4Payment⟩],
    ⟨true, true, true, true, some (TimeHeader.valid 0)⟩, 60,
    ⟨some ⟨"bad signature"⟩, some ⟨some "FAILURE"⟩⟩,
    FetchResult.ok ⟨some "ORD1", some "COMPLETED", []⟩,
    FetchResult.err ⟨"unused"⟩, none, true⟩

/-- C4 counterexample: for this invalid-signature event the trace is
`[referenceLookup, verifySignature]` — the resolver consulted the
reference index, and did so before the signature was verified — while
the claim requires verification to come first and the rejection to
happen without any reference-index lookup. -/
theorem c4_counterexample :
    webhook c4Input = ⟨Except.ok 400,
      [Step.referenceLookup, Step.verifySignature], c4Input.store,
      none⟩ := rfl

/-- C4 (amended): event resolution runs before signature verification:
for every event that passes the resource-type filter and resolves to an
event context, a failing signature check still yields a 400 rejection
with no store or payment mutation, but only after the reference-index
lookup, which heads the trace, followed by at most the verification
call. -/
theorem c4_resolution_precedes_verification (inp : WebhookInput) (ev : ℕ)
    (pid : Option String) (rpo : Option RPOEntry) (invoked : Bool)
    (hty : inp.eventJson.resource_type ∈
      ["checkout-order", "refund", "capture"])
    (hparse : parse_webhook_event inp.reqEvent inp.eventJson inp.store =
      Except.ok (some ev, pid, rpo))
    (hsig : check_webhook_signature inp.headers inp.now inp.verifyResponse =
      (Except.ok false, invoked)) :
    webhook inp = ⟨Except.ok 400, Step.referenceLookup ::
      (if invoked then [Step.verifySignature] else []),
      inp.store, none⟩ := by
  have hc : (["checkout-order", "refund", "capture"].contains
      inp.eventJson.resource_type) = true := by
    simpa using hty
  rw [webhook, if_neg (by rw [hc]; simp), hparse, hsig]

/-- Witness for the amended C4 theorem at the concrete invalid-signature
input. -/
theorem c4_resolution_precedes_verification_witness :
    webhook c4Input = ⟨Except.ok 400, Step.referenceLookup ::
      (if true then [Step.verifySignature] else []),
      c4Input.store, none⟩ :=
  c4_resolution_precedes_verification c4Input 100 (some "ORD1")
    (some ⟨"CAP1", 100, 10, some c4Payment⟩) true (by decide) rfl rfl

/-! ### Claim C2 -/

/-- The confirmed payment targeted by the C2 refund event. -/
def c2Payment : Payment :=
  ⟨2, 20, 200, some "ORD2", PayState.confirmed, 50, [], none⟩

/-- A refund event resolved through the CAP2 reference row to a confirmed
payment, whose refund-detail fetch fails with a provider error. -/
def c2Input : WebhookInput :=
  ⟨none, ⟨"refund", some "REF1",
      some [⟨"up", "https://api.example.com/v2/payments/captures/CAP2"⟩],
      none⟩,
    [⟨"CAP2", 200, 20, some c2Payment⟩],
    ⟨true, true, true, true, some (TimeHeader.valid 0)⟩, 60,
    ⟨none, some ⟨some "SUCCESS"⟩⟩,
    FetchResult.ok ⟨some "ORD2", some "COMPLETED", []⟩,
    FetchResult.err ⟨"refund lookup failed"⟩, none, true⟩

/-- C2: for this refund event on a confirmed payment the refund-detail
fetch fails and `handle_refund` builds a 400 response — visible in its
second component — but `handle_payment_state_confirmed` discards that
response and the webhook still acknowledges the delivery with 200 OK,
leaving the payment untouched.  The claim (and the discarded response
the code itself builds) requires a non-2xx rejection. -/
theorem c2_fetch_failure_acknowledged_with_200 :
    (webhook c2Input).response = Except.ok 200 ∧
    (webhook c2Input).payment = some c2Payment ∧
    (handle_refund c2Input.refundFetch c2Payment.refunds).2 = some 400 := by
  refine ⟨?_, ?_, ?_⟩ <;> rfl

/-! ### Claim C10 -/

/-- C10: when the candidate references match a reference row whose
nullable payment is NULL, `parse_webhook_event` dereferences
`rpo.payment.info_data` and the delivery dies with an unhandled
AttributeError instead of the documented 400/200 responses. -/
theorem c10_null_payment_unhandled_error (inp : WebhookInput)
    (pid : Option String) (e : RPOEntry)
    (hty : inp.eventJson.resource_type ∈
      ["checkout-order", "refund", "capture"])
    (hpid : derivePaymentId inp.eventJson = Except.ok pid)
    (hfind : inp.store.find? (fun x =>
      (candidateReferences pid inp.eventJson).contains (some x.reference)) =
      some e)
    (hnull : e.payment = none) :
    parse_webhook_event inp.reqEvent inp.eventJson inp.store =
      Except.error Crash.attrErrorNonePayment ∧
    (webhook inp).response = Except.error Crash.attrErrorNonePayment := by
  have hparse : parse_webhook_event inp.reqEvent inp.eventJson inp.store =
      Except.error Crash.attrErrorNonePayment := by
    simp only [parse_webhook_event, hpid, hfind, hnull]
  refine ⟨hparse, ?_⟩
  have hc : (["checkout-order", "refund", "capture"].contains
      inp.eventJson.resource_type) = true := by
    simpa using hty
  rw [webhook, if_neg (by rw [hc]; simp), hparse]

/-- A reference row for CAP9 whose payment foreign key is NULL. -/
def c10Entry : RPOEntry := ⟨"CAP9", 900, 90, none⟩

/-- A capture event whose reference matches the NULL-payment row. -/
def c10Input : WebhookInput :=
  ⟨none, ⟨"capture", some "CAP9", none, none⟩, [c10Entry],
    ⟨true, true, true, true, some (TimeHeader.valid 0)⟩, 0,
    ⟨none, none⟩, FetchResult.err ⟨"unused"⟩, FetchResult.err ⟨"unused"⟩,
    none, true⟩

/-- Witness for C10 at the concrete NULL-payment input. -/
theorem c10_null_payment_unhandled_error_witness :
    parse_webhook_event c10Input.reqEvent c10Input.eventJson c10Input.store =
      Except.error Crash.attrErrorNonePayment ∧
    (webhook c10Input).response = Except.error Crash.attrErrorNonePayment :=
  c10_null_payment_unhandled_error c10Input (some "CAP9") c10Entry
    (by decide) rfl rfl rfl

end PaypalWebhook
